import Mathlib

/-!
Verification development for the Bing Chat clone notebook
(src/08-BingChatClone.ipynb).  The notebook wires a search tool,
an LLM client and an agent executor together; the artifact-owned
logic embedded here is:

* the retry loop around the agent call
  (for i in range(n): try: response = agent_executor.run(Q); break
   except Exception as e: response = str(e); continue),
* the MyBingSearch tool class with its synchronous run method and
  its always-raising asynchronous arun method,
* the printmd rendering helper (replacing the dollar sign by USD ),
* the environment-variable mapping cell that copies the Azure
  OpenAI credentials into the names expected by the LLM client.

The langchain BingSearchAPIWrapper backend is external to the
repository; it appears as abstract parameters (a constructor and a
results call) so that theorems quantify over every possible backend.
-/

/-- Outcome of one attempt of the opaque agent-run operation.
An attempt may succeed with a value, raise an Exception-derived fault
(whose str is recorded), or raise a fault not derived from Exception
(such as KeyboardInterrupt), which the except clause does not match. -/
inductive RunOutcome where
  | ok (v : String)
  | exc (msg : String)
  | nonExc (msg : String)
deriving DecidableEq

/-- Result of the retry loop: either the loop finishes with the response
variable bound (or still unbound) after some number of attempts, or a
fault escapes the loop after some number of attempts. -/
inductive RetryResult where
  | completed (response : Option String) (attemptsMade : Nat)
  | propagated (msg : String) (attemptsMade : Nat)
deriving DecidableEq

/-- True exactly when the loop finished normally with a bound response,
i.e. an answer string was produced for the caller. -/
def RetryResult.producesAnswer : RetryResult → Bool
  | .completed (some _) _ => true
  | .completed none _ => false
  | .propagated _ _ => false

/-- The body of the notebook retry loop, iterating over the remaining
attempt budget.  i is the index of the next attempt, resp the current
value of the response variable.  On ok the loop breaks; on an
Exception-derived fault the message is stored and the loop continues;
on any other fault the loop is torn down and the fault escapes. -/
def retryLoop (run : Nat → RunOutcome) : Nat → Nat → Option String → RetryResult
  | 0, i, resp => .completed resp i
  | remaining + 1, i, resp =>
    match run i with
    | .ok v => .completed (some v) (i + 1)
    | .exc m => retryLoop run remaining (i + 1) (some m)
    | .nonExc m => .propagated m (i + 1)

/-- The whole retry wrapper: n attempts, starting with response unbound.
The notebook instantiates it with n = 2 at the first call site and
n = 3 at the second. -/
def run_with_retries (run : Nat → RunOutcome) (n : Nat) : RetryResult :=
  retryLoop run n 0 none

/-- One search record as produced by the results call of the backend:
title, snippet and source url. -/
structure SearchResult where
  title : String
  snippet : String
  url : String
deriving DecidableEq

/-- Modelled from the spec: the external langchain BingSearchAPIWrapper
is opaque; the embedding only records the result-count limit k it is
constructed with.  Its construction and its results call are abstract
parameters of the tool methods below. -/
structure BingSearchAPIWrapper where
  k : Int
deriving DecidableEq

/-- The MyBingSearch tool descriptor: fixed name and tool text set at
class definition, and the result-count field k (default 5). -/
structure MyBingSearch where
  name : String := "@bing"
  description : String := "useful when the questions includes the term: @bing.\n"
  k : Int := 5
deriving DecidableEq

/-- The synchronous run method.  It constructs a BingSearchAPIWrapper
with k = self.k (construction may raise, e.g. on missing credentials)
and returns the backend results call on the query with
num_results = self.k, verbatim.  The method writes no field of self,
so the tool state is returned unchanged alongside the result. -/
def MyBingSearch.run (t : MyBingSearch)
    (construct : Int → Except String BingSearchAPIWrapper)
    (results : BingSearchAPIWrapper → String → Int → Except String (List SearchResult))
    (query : String) :
    Except String (List SearchResult) × MyBingSearch :=
  match construct t.k with
  | .error e => (.error e, t)
  | .ok bing => (results bing query t.k, t)

/-- The asynchronous arun method: it unconditionally raises
NotImplementedError without touching any backend, and writes no field
of self. -/
def MyBingSearch.arun (t : MyBingSearch) (query : String) :
    Except String String × MyBingSearch :=
  (.error "NotImplementedError: This Tool does not support async", t)

/-- The tool instance constructed in the notebook: MyBingSearch(k=5). -/
def bingTool : MyBingSearch := { k := 5 }

/-- Character-level body of printmd: every occurrence of the dollar
sign is replaced by the four characters USD followed by a space; every
other character is kept.  This is str.replace with a one-character
pattern. -/
def replaceDollar : List Char → List Char
  | [] => []
  | c :: cs => (if c = '$' then "USD ".data else [c]) ++ replaceDollar cs

/-- printmd renders a string after substituting the dollar sign, to
avoid collision with the Markdown math delimiter. -/
def printmd (s : String) : String :=
  String.mk (replaceDollar s.data)

/-- Lookup of an environment variable; a missing key raises KeyError. -/
def envGet (env : String → Option String) (key : String) : Except String String :=
  match env key with
  | some v => .ok v
  | none => .error (String.append "KeyError: " key)

/-- Assignment of an environment variable. -/
def envSet (env : String → Option String) (key v : String) : String → Option String :=
  fun key2 => if key2 = key then some v else env key2

/-- The credential-mapping cell: it copies the Azure OpenAI endpoint,
key and API version into the variable names the LLM client expects and
sets the API type.  A missing source variable raises KeyError at this
step, before any agent call. -/
def setAzureEnv (env : String → Option String) :
    Except String (String → Option String) := do
  let base ← envGet env "AZURE_OPENAI_ENDPOINT"
  let env1 := envSet env "OPENAI_API_BASE" base
  let key ← envGet env1 "AZURE_OPENAI_API_KEY"
  let env2 := envSet env1 "OPENAI_API_KEY" key
  let ver ← envGet env2 "AZURE_OPENAI_API_VERSION"
  let env3 := envSet env2 "OPENAI_API_VERSION" ver
  pure (envSet env3 "OPENAI_API_TYPE" "azure")

/-! ### Helper lemmas on the retry loop -/

/-- If every remaining attempt raises an Exception-derived fault, the
loop runs through all of them and finishes with the last message. -/
lemma retryLoop_all_exc (run : Nat → RunOutcome) (msgs : Nat → String) :
    ∀ remaining i resp, 0 < remaining →
      (∀ d, d < remaining → run (i + d) = .exc (msgs (i + d))) →
      retryLoop run remaining i resp =
        .completed (some (msgs (i + remaining - 1))) (i + remaining) := by
  intro remaining
  induction remaining with
  | zero => intro i resp h _; exact absurd h (by omega)
  | succ rem ih =>
    intro i resp _ hall
    have h0 : run i = .exc (msgs i) := by simpa using hall 0 (by omega)
    cases rem with
    | zero => simp [retryLoop, h0]
    | succ rem2 =>
      have hstep : retryLoop run (rem2 + 1 + 1) i resp =
          retryLoop run (rem2 + 1) (i + 1) (some (msgs i)) := by
        simp [retryLoop, h0]
      have hrec := ih (i + 1) (some (msgs i)) (by omega) (fun d hd => by
        have h := hall (d + 1) (by omega)
        have heq : i + (d + 1) = i + 1 + d := by omega
        rw [heq] at h
        exact h)
      rw [hstep, hrec]
      have e1 : i + 1 + (rem2 + 1) - 1 = i + (rem2 + 1 + 1) - 1 := by omega
      have e2 : i + 1 + (rem2 + 1) = i + (rem2 + 1 + 1) := by omega
      rw [e1, e2]

/-- If the attempts before index j raise Exception-derived faults and
attempt j raises a fault outside the Exception hierarchy, the loop is
torn down at attempt j and the fault escapes. -/
lemma retryLoop_nonExc (run : Nat → RunOutcome) (j : Nat) (m : String)
    (hj : run j = .nonExc m) :
    ∀ remaining i resp, i ≤ j → j < i + remaining →
      (∀ i2, i ≤ i2 → i2 < j → ∃ m2, run i2 = .exc m2) →
      retryLoop run remaining i resp = .propagated m (j + 1) := by
  intro remaining
  induction remaining with
  | zero => intro i resp h1 h2 _; exact absurd h2 (by omega)
  | succ rem ih =>
    intro i resp hij hlt hexc
    rcases Nat.eq_or_lt_of_le hij with heq | hlt2
    · subst heq
      simp [retryLoop, hj]
    · obtain ⟨m2, hm2⟩ := hexc i (Nat.le_refl i) hlt2
      have hstep : retryLoop run (rem + 1) i resp =
          retryLoop run rem (i + 1) (some m2) := by
        simp [retryLoop, hm2]
      rw [hstep]
      exact ih (i + 1) (some m2) hlt2 (by omega)
        (fun i2 h2 h3 => hexc i2 (by omega) h3)

/-! ### Claims about the Retry Wrapper -/

/-- C1: when the agent-run operation raises an Exception-derived fault
on every one of the n configured attempts (n = 2 at the first call
site, n = 3 at the second), the retry wrapper performs exactly n
attempts and the final answer is the string representation of the last
raised exception. -/
theorem retry_all_fail (run : Nat → RunOutcome) (n : Nat) (msgs : Nat → String)
    (hn : 0 < n) (h : ∀ i, i < n → run i = .exc (msgs i)) :
    run_with_retries run n = .completed (some (msgs (n - 1))) n := by
  have hmain := retryLoop_all_exc run msgs n 0 none hn (fun d hd => by
    simpa using h d hd)
  simpa using hmain

theorem retry_all_fail_witness :
    run_with_retries (fun i => .exc (if i = 0 then "first failure" else "second failure")) 2 =
      .completed (some "second failure") 2 := by
  have h := retry_all_fail
    (fun i => .exc (if i = 0 then "first failure" else "second failure")) 2
    (fun i => if i = 0 then "first failure" else "second failure")
    (by omega) (fun i _ => rfl)
  simpa using h

/-- C2: when the first attempt raises an Exception-derived fault and
the second attempt succeeds, the retry wrapper returns the successful
value after exactly 2 attempts, regardless of the configured budget
n ≥ 2, and the earlier fault message does not reach the result. -/
theorem retry_fail_then_success (run : Nat → RunOutcome) (n : Nat) (m v : String)
    (hn : 2 ≤ n) (h0 : run 0 = .exc m) (h1 : run 1 = .ok v) :
    run_with_retries run n = .completed (some v) 2 := by
  obtain ⟨k, rfl⟩ : ∃ k, n = k + 2 := ⟨n - 2, by omega⟩
  simp [run_with_retries, retryLoop, h0, h1]

theorem retry_fail_then_success_witness :
    run_with_retries (fun i => if i = 0 then .exc "parse error" else .ok "final answer") 3 =
      .completed (some "final answer") 2 :=
  retry_fail_then_success
    (fun i => if i = 0 then .exc "parse error" else .ok "final answer")
    3 "parse error" "final answer" (by omega) rfl rfl

/-- C9: the except clause matches only Exception-derived faults.  When
attempt j raises a fault outside the Exception hierarchy (such as
KeyboardInterrupt) after j Exception-derived failures, the fault
escapes the loop uncaught after j + 1 attempts and no answer string is
produced. -/
theorem retry_nonexception_propagates (run : Nat → RunOutcome) (n j : Nat)
    (m : String) (hj : j < n)
    (hbefore : ∀ i, i < j → ∃ mi, run i = .exc mi)
    (hf : run j = .nonExc m) :
    run_with_retries run n = .propagated m (j + 1) ∧
      (run_with_retries run n).producesAnswer = false := by
  have h : run_with_retries run n = .propagated m (j + 1) :=
    retryLoop_nonExc run j m hf n 0 none (Nat.zero_le j) (by omega)
      (fun i2 _ h3 => hbefore i2 h3)
  exact ⟨h, by rw [h]; rfl⟩

theorem retry_nonexception_propagates_witness :
    run_with_retries (fun _ => .nonExc "KeyboardInterrupt") 2 =
        .propagated "KeyboardInterrupt" 1 ∧
      (run_with_retries (fun _ => .nonExc "KeyboardInterrupt") 2).producesAnswer = false :=
  retry_nonexception_propagates (fun _ => .nonExc "KeyboardInterrupt") 2 0
    "KeyboardInterrupt" (by omega) (fun i hi => absurd hi (by omega)) rfl

/-! ### Claims about the Search Adapter -/

/-- A concrete record used to instantiate the abstract backend in
witnesses. -/
def demoRecord : SearchResult :=
  { title := "Oil supply news", snippet := "latest facts", url := "https://example.org" }

/-- A concrete well-behaved backend used in witnesses: it returns one
relevance-ranked record when asked for a positive number of results and
rejects nonpositive counts. -/
def demoBackend : BingSearchAPIWrapper → String → Int → Except String (List SearchResult) :=
  fun _ _ n => if 0 < n then .ok [demoRecord] else .error "invalid result count"

/-- C3: for every query and positive limit k, the synchronous run
method returns the backend result sequence verbatim (hence in the
backend relevance order, each record carrying title, snippet and url,
possibly empty), passes its own k to the backend as the result count,
and, as long as the backend honours the count bound, the returned
sequence has at most k records. -/
theorem bing_run_returns_backend_results (t : MyBingSearch)
    (construct : Int → Except String BingSearchAPIWrapper)
    (results : BingSearchAPIWrapper → String → Int → Except String (List SearchResult))
    (query : String) (w : BingSearchAPIWrapper)
    (hk : 0 < t.k)
    (hc : construct t.k = .ok w)
    (hbound : ∀ w2 q n rs, results w2 q n = .ok rs → (rs.length : Int) ≤ n) :
    (t.run construct results query).1 = results w query t.k ∧
      ∀ rs, (t.run construct results query).1 = .ok rs → (rs.length : Int) ≤ t.k := by
  have h1 : (t.run construct results query).1 = results w query t.k := by
    simp [MyBingSearch.run, hc]
  exact ⟨h1, fun rs hrs => hbound w query t.k rs (h1 ▸ hrs)⟩

theorem bing_run_returns_backend_results_witness :
    (bingTool.run (fun k2 => .ok ⟨k2⟩) demoBackend "oil supply news").1 =
        demoBackend ⟨5⟩ "oil supply news" 5 ∧
      ∀ rs, (bingTool.run (fun k2 => .ok ⟨k2⟩) demoBackend "oil supply news").1 = .ok rs →
        (rs.length : Int) ≤ bingTool.k :=
  bing_run_returns_backend_results bingTool (fun k2 => .ok ⟨k2⟩) demoBackend
    "oil supply news" ⟨5⟩ (by decide) rfl
    (fun w2 q n rs h => by
      by_cases hn : 0 < n
      · have hrs : rs = [demoRecord] := by
          have h2 := h
          simp [demoBackend, hn] at h2
          exact h2.symm
        subst hrs
        simp only [List.length_cons, List.length_nil]
        omega
      · simp [demoBackend, hn] at h)

/-- C4: the asynchronous arun entry point raises NotImplementedError
for every input query, touches no backend, and never returns a value. -/
theorem bing_arun_always_fails (t : MyBingSearch) (query : String) :
    (t.arun query).1 = .error "NotImplementedError: This Tool does not support async" ∧
      ((t.arun query).1).isOk = false :=
  ⟨rfl, rfl⟩

/-- C6: neither the synchronous nor the asynchronous invocation writes
any field of the tool: the descriptor name, the tool text and the
result-count field k all survive every invocation unchanged, and the
notebook instance MyBingSearch(k=5) carries the fixed construction
values. -/
theorem bing_tool_descriptor_immutable :
    (∀ (t : MyBingSearch) construct results (q : String),
        (t.run construct results q).2 = t) ∧
      (∀ (t : MyBingSearch) (q : String), (t.arun q).2 = t) ∧
      bingTool.name = "@bing" ∧
      bingTool.description = "useful when the questions includes the term: @bing.\n" ∧
      bingTool.k = 5 := by
  refine ⟨?_, fun t q => rfl, rfl, rfl, rfl⟩
  intro t construct results q
  unfold MyBingSearch.run
  cases construct t.k <;> rfl

/-- C7: when the backend results call raises a network or
authentication failure, the synchronous run method hands that very
error to its caller: no retry, no transformation. -/
theorem bing_run_propagates_backend_error (t : MyBingSearch)
    (construct : Int → Except String BingSearchAPIWrapper)
    (results : BingSearchAPIWrapper → String → Int → Except String (List SearchResult))
    (query e : String) (w : BingSearchAPIWrapper)
    (hc : construct t.k = .ok w)
    (he : results w query t.k = .error e) :
    (t.run construct results query).1 = .error e := by
  simp [MyBingSearch.run, hc, he]

theorem bing_run_propagates_backend_error_witness :
    (bingTool.run (fun k2 => .ok ⟨k2⟩)
        (fun _ _ _ => .error "ConnectionError: connection timed out") "q").1 =
      .error "ConnectionError: connection timed out" :=
  bing_run_propagates_backend_error bingTool (fun k2 => .ok ⟨k2⟩)
    (fun _ _ _ => .error "ConnectionError: connection timed out") "q"
    "ConnectionError: connection timed out" ⟨5⟩ rfl rfl

/-- C10: the synchronous run method validates nothing: the empty query
string is forwarded unchanged to the backend results call together
with the configured limit k, instead of failing fast. -/
theorem bing_run_empty_query_forwarded (t : MyBingSearch)
    (construct : Int → Except String BingSearchAPIWrapper)
    (results : BingSearchAPIWrapper → String → Int → Except String (List SearchResult))
    (w : BingSearchAPIWrapper)
    (hc : construct t.k = .ok w) :
    (t.run construct results "").1 = results w "" t.k := by
  simp [MyBingSearch.run, hc]

theorem bing_run_empty_query_forwarded_witness :
    (bingTool.run (fun k2 => .ok ⟨k2⟩) demoBackend "").1 = demoBackend ⟨5⟩ "" 5 :=
  bing_run_empty_query_forwarded bingTool (fun k2 => .ok ⟨k2⟩) demoBackend ⟨5⟩ rfl

/-! ### Claims about the rendering step -/

/-- Substitution distributes over concatenation. -/
lemma replaceDollar_append (l1 l2 : List Char) :
    replaceDollar (l1 ++ l2) = replaceDollar l1 ++ replaceDollar l2 := by
  induction l1 with
  | nil => rfl
  | cons c cs ih => simp [replaceDollar, ih]

/-- The substituted text contains no dollar sign. -/
lemma replaceDollar_count (l : List Char) :
    (replaceDollar l).count '$' = 0 := by
  induction l with
  | nil => rfl
  | cons c cs ih =>
    by_cases h : c = '$'
    · simp [replaceDollar, h, List.count_append, ih]
    · simp [replaceDollar, h, List.count_append, List.count_cons, ih]

/-- C5: the rendering step substitutes every occurrence of the dollar
sign by the literal text USD followed by a space: substitution splits
over any occurrence, a string containing the text USD100 preceded by a
dollar renders as stated, and no dollar survives in the output. -/
theorem printmd_replaces_dollar :
    (∀ s t : String, printmd (s ++ "$" ++ t) = printmd s ++ "USD " ++ printmd t) ∧
      printmd "$100" = "USD 100" ∧
      ∀ s : String, ((printmd s).data.count '$') = 0 := by
  refine ⟨?_, by decide, fun s => replaceDollar_count s.data⟩
  intro s t
  apply String.ext
  show replaceDollar (s ++ "$" ++ t).data = (printmd s ++ "USD " ++ printmd t).data
  simp only [String.data_append, replaceDollar_append, printmd]
  congr 1

/-! ### Claims about configuration errors -/

/-- The fault message raised by the external search wrapper validator
when its subscription key is absent from the environment. -/
def bingConfigErrorMsg : String := "ValidationError: Did not find bing_subscription_key"

/-- A constructor of the external search wrapper whose credential
validation fails: missing or invalid search credentials. -/
def failingConstruct : Int → Except String BingSearchAPIWrapper :=
  fun _ => .error bingConfigErrorMsg

/-- C8 counterexample: the claim says configuration errors surface at
client construction, before any agent call, and are caught by no
handler.  But the search wrapper is constructed inside the run method,
so a missing search credential raises during the agent call, inside
the try block; fed to the retry wrapper it is caught like any other
Exception-derived fault, the loop finishes all 2 attempts, and the
error message is returned as the final answer. -/
theorem config_error_caught_by_retry_counterexample :
    (bingTool.run failingConstruct demoBackend "current news").1 =
        .error bingConfigErrorMsg ∧
      run_with_retries (fun _ => .exc bingConfigErrorMsg) 2 =
        .completed (some bingConfigErrorMsg) 2 ∧
      (run_with_retries (fun _ => .exc bingConfigErrorMsg) 2).producesAnswer = true :=
  ⟨rfl, rfl, rfl⟩

/-- C8 amended: LLM-client configuration errors are fatal and surface
before any agent call, at the credential-mapping step, uncaught; but
the search wrapper is constructed per adapter invocation, so missing
search credentials raise during the agent call and are caught by the
Retry Wrapper, which masks them as the final answer after all
configured attempts. -/
theorem config_error_amended :
    (∀ env : String → Option String, env "AZURE_OPENAI_ENDPOINT" = none →
        setAzureEnv env = .error "KeyError: AZURE_OPENAI_ENDPOINT") ∧
      (∀ (cfgMsg : String) (n : Nat), 0 < n →
        run_with_retries (fun _ => .exc cfgMsg) n = .completed (some cfgMsg) n) := by
  constructor
  · intro env h
    unfold setAzureEnv
    have hget : envGet env "AZURE_OPENAI_ENDPOINT" =
        .error "KeyError: AZURE_OPENAI_ENDPOINT" := by
      unfold envGet
      rw [h]
      rfl
    rw [hget]
    rfl
  · intro cfgMsg n hn
    have h := retryLoop_all_exc (fun _ => .exc cfgMsg) (fun _ => cfgMsg)
      n 0 none hn (fun d _ => rfl)
    simpa using h

theorem config_error_amended_witness :
    setAzureEnv (fun _ => none) = .error "KeyError: AZURE_OPENAI_ENDPOINT" ∧
      run_with_retries (fun _ => .exc "ValidationError: missing key") 2 =
        .completed (some "ValidationError: missing key") 2 :=
  ⟨config_error_amended.1 (fun _ => none) rfl,
   config_error_amended.2 "ValidationError: missing key" 2 (by decide)⟩
